import Mathlib

/-!
Verification of the Vault View component (`src/App.vue`, `<script setup>` block)
of the `qwe` password-manager repository.

The component's reactive state (the `ref` cells declared at the top of the
script) is modelled as an explicit record `VaultState`.  Each handler
(`loadPasswords`, `addPassword`, `deletePassword`, `generatePassword`,
`getFilteredPasswords`) becomes a pure Lean function: the outcome of every
remote `invoke` call is passed in as an `Except String _` value (the store is
an external collaborator), and the handlers that issue store requests also
return the list of requests they transmitted, so that claims about what is
sent to the store can be stated.

JavaScript strings are modelled as Lean `String` (a list of characters in this
toolchain); `toLowerCase` becomes a character-wise `Char.toLower` map and
`includes` becomes the list-infix test.
-/

/-- The `PasswordEntry` interface of the source: `url` and `notes` are
optional (`url?: string`), so they are modelled as `Option String`;
a JavaScript `undefined` field is `none`. -/
structure PasswordEntry where
  name : String
  username : String
  password : String
  url : Option String
  notes : Option String
deriving DecidableEq

/-- The object `addPassword` sends to the store through
`invoke("add_password", {...})`: `url` and `notes` are nullable there. -/
structure AddRequest where
  name : String
  username : String
  password : String
  url : Option String
  notes : Option String
deriving DecidableEq

/-- A request transmitted to the backing store by one of the four
`invoke` commands used in the script. -/
inductive StoreCall where
  | list : StoreCall
  | add : AddRequest → StoreCall
  | delete : String → StoreCall
  | generate : Nat → StoreCall
deriving DecidableEq

/-- The reactive state of the component: the `ref` cells
`passwords`, `showAddForm`, `searchQuery`, `selectedPassword`,
`showPassword`, `errorMessage`, `newPassword`, `passwordLength`. -/
structure VaultState where
  passwords : List PasswordEntry
  showAddForm : Bool
  searchQuery : String
  selectedPassword : Option PasswordEntry
  showPassword : Bool
  errorMessage : String
  newPassword : PasswordEntry
  passwordLength : Nat
deriving DecidableEq

/-- The object the form is reset to in `addPassword`
(also the initial value of the `newPassword` ref):
all five fields are present and hold the empty string. -/
def emptyDraft : PasswordEntry :=
  { name := "", username := "", password := "", url := some "", notes := some "" }

/-- `loadPasswords`: `invoke("get_passwords")` either yields a new collection,
which is assigned to `passwords`, or throws, in which case only
`errorMessage` is written.  No other `ref` is touched. -/
def loadPasswords (s : VaultState) (r : Except String (List PasswordEntry)) :
    VaultState :=
  match r with
  | Except.ok ps => { s with passwords := ps }
  | Except.error e =>
      { s with errorMessage := "Ошибка при загрузке паролей: " ++ e }

/-- The JavaScript expression `x || null` applied to a string-or-undefined
field: `undefined` and the empty string are falsy, every other string is
truthy. -/
def jsOrNull : Option String → Option String
  | none => none
  | some v => if v = "" then none else some v

/-- The argument object of `invoke("add_password", {...})` built from the
draft: `name`, `username`, `password` verbatim, `url` and `notes` put
through `|| null`. -/
def mkAddRequest (p : PasswordEntry) : AddRequest :=
  { name := p.name
    username := p.username
    password := p.password
    url := jsOrNull p.url
    notes := jsOrNull p.notes }

/-- `addPassword`: transmits the draft (`newPassword`) to the store.  On
success the draft is reset to `emptyDraft`, `showAddForm` is set to `false`,
and `loadPasswords` runs (its own failure is caught inside itself).  On a
store rejection only `errorMessage` is written.  The second component is the
list of store requests transmitted. -/
def addPassword (s : VaultState) (addRes : Except String Unit)
    (loadRes : Except String (List PasswordEntry)) :
    VaultState × List StoreCall :=
  match addRes with
  | Except.ok _ =>
      let s1 := { s with newPassword := emptyDraft, showAddForm := false }
      (loadPasswords s1 loadRes,
       [StoreCall.add (mkAddRequest s.newPassword), StoreCall.list])
  | Except.error e =>
      ({ s with errorMessage := "Ошибка при добавлении пароля: " ++ e },
       [StoreCall.add (mkAddRequest s.newPassword)])

/-- `deletePassword(name)`: everything is guarded by `confirm(...)`, whose
answer is the `confirmed` argument.  When confirmed, the delete request is
transmitted; on success `loadPasswords` runs and then the selection is
cleared when `selectedPassword.value?.name === name`; on failure only
`errorMessage` is written.  When the confirmation is refused nothing at all
happens.  The second component is the list of store requests transmitted. -/
def deletePassword (s : VaultState) (name : String) (confirmed : Bool)
    (delRes : Except String Unit)
    (loadRes : Except String (List PasswordEntry)) :
    VaultState × List StoreCall :=
  if confirmed then
    match delRes with
    | Except.ok _ =>
        let s1 := loadPasswords s loadRes
        let sel : Bool :=
          match s1.selectedPassword with
          | some p => p.name == name
          | none => false
        (if sel then { s1 with selectedPassword := none } else s1,
         [StoreCall.delete name, StoreCall.list])
    | Except.error e =>
        ({ s with errorMessage := "Ошибка при удалении пароля: " ++ e },
         [StoreCall.delete name])
  else (s, [])

/-- `generatePassword`: `invoke("generate_password", { length })` either
yields a string, which is written into the draft's `password` field, or
throws, in which case only `errorMessage` is written. -/
def generatePassword (s : VaultState) (r : Except String String) :
    VaultState :=
  match r with
  | Except.ok pw =>
      { s with newPassword := { s.newPassword with password := pw } }
  | Except.error e =>
      { s with errorMessage := "Ошибка при генерации пароля: " ++ e }

/-- JavaScript `toLowerCase()`: lower-case every character. -/
def lowerStr (s : String) : String := ⟨s.data.map Char.toLower⟩

/-- JavaScript `s.includes(pat)`: `pat` occurs contiguously in `s`. -/
def containsStr (s pat : String) : Bool := decide (pat.data <:+: s.data)

/-- The arrow predicate inside `passwords.value.filter(...)`, applied to the
already-lowercased query: `p.name.toLowerCase().includes(query) ||
p.username.toLowerCase().includes(query) ||
(p.url && p.url.toLowerCase().includes(query))`.  An absent `url` and the
empty-string `url` are both falsy, short-circuiting the third disjunct. -/
def entryMatches (query : String) (p : PasswordEntry) : Bool :=
  containsStr (lowerStr p.name) query ||
  containsStr (lowerStr p.username) query ||
  (match p.url with
   | some u => if u = "" then false else containsStr (lowerStr u) query
   | none => false)

/-- `getFilteredPasswords()`: with a falsy (empty) `searchQuery` the
collection is returned as is; otherwise the collection is filtered by
`entryMatches` against the lowercased query. -/
def getFilteredPasswords (s : VaultState) : List PasswordEntry :=
  if s.searchQuery = "" then s.passwords
  else s.passwords.filter (entryMatches (lowerStr s.searchQuery))

/-- Spec-side ("case-insensitive substring") containment, written from the
spec's words: `pat` occurs in `s` ignoring case. -/
def ciContains (s pat : String) : Bool := containsStr (lowerStr s) (lowerStr pat)

/-- Spec-side match predicate, written from the spec's words: the query is a
case-insensitive substring of `name`, `username`, or `url` when present;
`notes` is excluded. -/
def ciMatches (query : String) (p : PasswordEntry) : Bool :=
  ciContains p.name query ||
  ciContains p.username query ||
  (match p.url with
   | some u => ciContains u query
   | none => false)

-- sanity examples (concrete evaluations of the embedding)
example :
    getFilteredPasswords
      { passwords :=
          [{ name := "Bank", username := "alice", password := "x",
             url := some "bank.com", notes := none },
           { name := "Email", username := "alice", password := "y",
             url := none, notes := none }],
        showAddForm := false, searchQuery := "bank",
        selectedPassword := none, showPassword := false,
        errorMessage := "", newPassword := emptyDraft,
        passwordLength := 16 } =
      [{ name := "Bank", username := "alice", password := "x",
         url := some "bank.com", notes := none }] := by decide

example :
    mkAddRequest
      { name := "a", username := "b", password := "c",
        url := some "", notes := some "n" } =
      { name := "a", username := "b", password := "c",
        url := none, notes := some "n" } := by decide

/-- Claim C2 (confirmed): a failing store list call leaves the local
collection exactly unchanged and sets the error slot to the message embedding
the failure detail; the collection is replaced exactly by the newly received
one on success. -/
theorem load_failure_preserves_collection (s : VaultState) :
    (∀ e, (loadPasswords s (Except.error e)).passwords = s.passwords ∧
      (loadPasswords s (Except.error e)).errorMessage =
        "Ошибка при загрузке паролей: " ++ e) ∧
    (∀ ps, (loadPasswords s (Except.ok ps)).passwords = ps) :=
  ⟨fun _ => ⟨rfl, rfl⟩, fun _ => rfl⟩

/-- Claim C3 (confirmed): on store success `addPassword` resets the draft to
the empty entry and closes the add form; on store failure the draft and the
form flag are exactly unchanged (so an open form remains open) and the error
slot is set. -/
theorem addPassword_draft_contract (s : VaultState) :
    (∀ loadRes,
      (addPassword s (Except.ok ()) loadRes).fst.newPassword = emptyDraft ∧
      (addPassword s (Except.ok ()) loadRes).fst.showAddForm = false) ∧
    (∀ e loadRes,
      (addPassword s (Except.error e) loadRes).fst.newPassword = s.newPassword ∧
      (addPassword s (Except.error e) loadRes).fst.showAddForm = s.showAddForm ∧
      (s.showAddForm = true →
        (addPassword s (Except.error e) loadRes).fst.showAddForm = true) ∧
      (addPassword s (Except.error e) loadRes).fst.errorMessage =
        "Ошибка при добавлении пароля: " ++ e) := by
  constructor
  · intro loadRes
    cases loadRes <;> exact ⟨rfl, rfl⟩
  · intro e loadRes
    exact ⟨rfl, rfl, fun h => h, rfl⟩

def stAdd : VaultState :=
  { passwords := [], showAddForm := true, searchQuery := "",
    selectedPassword := none, showPassword := false, errorMessage := "",
    newPassword :=
      { name := "n", username := "u", password := "p",
        url := some "", notes := some "note" },
    passwordLength := 16 }

theorem addPassword_draft_contract_witness :
    stAdd.showAddForm = true ∧
    (addPassword stAdd (Except.error "boom") (Except.ok [])).fst.showAddForm = true :=
  ⟨rfl, ((addPassword_draft_contract stAdd).2 "boom" (Except.ok [])).2.2.1 rfl⟩

/-- Claim C4 (confirmed): `addPassword` transmits `name`, `username` and
`password` verbatim; `url` and `notes` are transmitted as absent when they
are empty (or already absent), and verbatim when non-empty. -/
theorem addPassword_transmits_normalized (s : VaultState)
    (addRes : Except String Unit)
    (loadRes : Except String (List PasswordEntry)) :
    StoreCall.add (mkAddRequest s.newPassword) ∈
      (addPassword s addRes loadRes).snd ∧
    (mkAddRequest s.newPassword).name = s.newPassword.name ∧
    (mkAddRequest s.newPassword).username = s.newPassword.username ∧
    (mkAddRequest s.newPassword).password = s.newPassword.password ∧
    ((s.newPassword.url = none ∨ s.newPassword.url = some "") →
      (mkAddRequest s.newPassword).url = none) ∧
    (∀ v, v ≠ "" → s.newPassword.url = some v →
      (mkAddRequest s.newPassword).url = some v) ∧
    ((s.newPassword.notes = none ∨ s.newPassword.notes = some "") →
      (mkAddRequest s.newPassword).notes = none) ∧
    (∀ v, v ≠ "" → s.newPassword.notes = some v →
      (mkAddRequest s.newPassword).notes = some v) := by
  refine ⟨?_, rfl, rfl, rfl, ?_, ?_, ?_, ?_⟩
  · cases addRes <;> simp [addPassword]
  · rintro (h | h) <;> simp [mkAddRequest, jsOrNull, h]
  · intro v hv h
    simp [mkAddRequest, jsOrNull, h, hv]
  · rintro (h | h) <;> simp [mkAddRequest, jsOrNull, h]
  · intro v hv h
    simp [mkAddRequest, jsOrNull, h, hv]

theorem addPassword_transmits_normalized_witness :
    (mkAddRequest stAdd.newPassword).url = none ∧
    (mkAddRequest stAdd.newPassword).notes = some "note" :=
  ⟨(addPassword_transmits_normalized stAdd (Except.ok ())
      (Except.ok [])).2.2.2.2.1 (Or.inr rfl),
   (addPassword_transmits_normalized stAdd (Except.ok ())
      (Except.ok [])).2.2.2.2.2.2.2 "note" (by decide) rfl⟩

/-- Claim C5 (confirmed): the delete request is transmitted exactly when the
user confirmation was given, and a refused confirmation changes no state and
transmits nothing. -/
theorem deletePassword_requires_confirmation (s : VaultState) (name : String)
    (delRes : Except String Unit)
    (loadRes : Except String (List PasswordEntry)) :
    deletePassword s name false delRes loadRes = (s, []) ∧
    (∀ confirmed : Bool,
      StoreCall.delete name ∈
        (deletePassword s name confirmed delRes loadRes).snd ↔
      confirmed = true) := by
  constructor
  · simp [deletePassword]
  · intro confirmed
    cases confirmed <;> cases delRes <;> simp [deletePassword]

/-- Claim C6 (confirmed): with confirmation given, a successful delete clears
the selection exactly when the selected entry bore the deleted name, and only
in the success branch; a failing delete leaves the selection and the
collection exactly unchanged and sets the error slot. -/
theorem deletePassword_selection_contract (s : VaultState) (name : String)
    (loadRes : Except String (List PasswordEntry)) :
    (∀ p, s.selectedPassword = some p → p.name = name →
      (deletePassword s name true (Except.ok ())
        loadRes).fst.selectedPassword = none) ∧
    (∀ p, s.selectedPassword = some p → p.name ≠ name →
      (deletePassword s name true (Except.ok ())
        loadRes).fst.selectedPassword = some p) ∧
    (∀ e,
      (deletePassword s name true (Except.error e)
        loadRes).fst.selectedPassword = s.selectedPassword ∧
      (deletePassword s name true (Except.error e)
        loadRes).fst.passwords = s.passwords ∧
      (deletePassword s name true (Except.error e)
        loadRes).fst.errorMessage =
        "Ошибка при удалении пароля: " ++ e) := by
  refine ⟨?_, ?_, fun e => ⟨rfl, rfl, rfl⟩⟩
  · intro p hp hname
    cases loadRes <;> simp [deletePassword, loadPasswords, hp, hname]
  · intro p hp hname
    cases loadRes <;> simp [deletePassword, loadPasswords, hp, hname]

def entryDelX : PasswordEntry :=
  { name := "X", username := "ux", password := "px",
    url := none, notes := none }

def stDel : VaultState :=
  { passwords := [entryDelX], showAddForm := false, searchQuery := "",
    selectedPassword := some entryDelX, showPassword := false,
    errorMessage := "", newPassword := emptyDraft, passwordLength := 16 }

theorem deletePassword_selection_contract_witness :
    (deletePassword stDel "X" true (Except.ok ())
      (Except.ok [])).fst.selectedPassword = none ∧
    (deletePassword stDel "Y" true (Except.ok ())
      (Except.ok [])).fst.selectedPassword = some entryDelX :=
  ⟨(deletePassword_selection_contract stDel "X" (Except.ok [])).1
      entryDelX rfl rfl,
   (deletePassword_selection_contract stDel "Y" (Except.ok [])).2.1
      entryDelX rfl (by decide)⟩

/-- Claim C7 (confirmed): a successful generate writes the returned string
into the draft's password field and changes nothing else — in particular
neither the collection nor the selection; a failing generate changes only the
error slot, the draft password keeping its previous value. -/
theorem generatePassword_frame (s : VaultState) :
    (∀ pw,
      (generatePassword s (Except.ok pw)).newPassword.password = pw ∧
      (generatePassword s (Except.ok pw)).newPassword.name =
        s.newPassword.name ∧
      (generatePassword s (Except.ok pw)).newPassword.username =
        s.newPassword.username ∧
      (generatePassword s (Except.ok pw)).newPassword.url =
        s.newPassword.url ∧
      (generatePassword s (Except.ok pw)).newPassword.notes =
        s.newPassword.notes ∧
      (generatePassword s (Except.ok pw)).passwords = s.passwords ∧
      (generatePassword s (Except.ok pw)).selectedPassword =
        s.selectedPassword ∧
      (generatePassword s (Except.ok pw)).showAddForm = s.showAddForm ∧
      (generatePassword s (Except.ok pw)).searchQuery = s.searchQuery ∧
      (generatePassword s (Except.ok pw)).errorMessage = s.errorMessage) ∧
    (∀ e,
      (generatePassword s (Except.error e)).newPassword = s.newPassword ∧
      (generatePassword s (Except.error e)).passwords = s.passwords ∧
      (generatePassword s (Except.error e)).selectedPassword =
        s.selectedPassword ∧
      (generatePassword s (Except.error e)).errorMessage =
        "Ошибка при генерации пароля: " ++ e) :=
  ⟨fun _ => ⟨rfl, rfl, rfl, rfl, rfl, rfl, rfl, rfl, rfl, rfl⟩,
   fun _ => ⟨rfl, rfl, rfl, rfl⟩⟩

/-- Claim C10 (confirmed): when the store add succeeds but the subsequent
reload fails, the draft is still reset and the form closed, the collection
stays the pre-add collection, and the error slot holds the reload's error
message. -/
theorem addPassword_reload_failure (s : VaultState) (e : String) :
    (addPassword s (Except.ok ()) (Except.error e)).fst =
      { s with newPassword := emptyDraft, showAddForm := false,
               errorMessage := "Ошибка при загрузке паролей: " ++ e } := rfl

def entryX : PasswordEntry :=
  { name := "X", username := "u", password := "p",
    url := none, notes := none }

def stX : VaultState :=
  { passwords := [entryX], showAddForm := false, searchQuery := "",
    selectedPassword := some entryX, showPassword := false,
    errorMessage := "", newPassword := emptyDraft, passwordLength := 16 }

/-- Claim C1 (counterexample): a successful load whose returned collection no
longer contains the selected name removes the selected entry from the
collection but leaves the selection non-empty — the claim as stated is false
on the code. -/
theorem load_keeps_stale_selection :
    (loadPasswords stX (Except.ok [])).passwords = [] ∧
    (loadPasswords stX (Except.ok [])).selectedPassword = some entryX ∧
    (loadPasswords stX (Except.ok [])).selectedPassword ≠ none := by
  refine ⟨rfl, rfl, ?_⟩
  simp [loadPasswords, stX]

/-- Claim C1 (amended): the selection becomes empty when the selected entry
is removed by a confirmed successful `deletePassword` bearing its name;
`loadPasswords` never changes the selection, so a load whose returned
collection no longer contains the selected name leaves the selection
unchanged. -/
theorem selection_clearing_amended (s : VaultState) :
    (∀ r, (loadPasswords s r).selectedPassword = s.selectedPassword) ∧
    (∀ name loadRes p, s.selectedPassword = some p → p.name = name →
      (deletePassword s name true (Except.ok ())
        loadRes).fst.selectedPassword = none) := by
  constructor
  · intro r; cases r <;> rfl
  · intro name loadRes p hp hname
    cases loadRes <;> simp [deletePassword, loadPasswords, hp, hname]

theorem selection_clearing_amended_witness :
    (loadPasswords stX (Except.ok [])).selectedPassword =
      stX.selectedPassword ∧
    (deletePassword stX "X" true (Except.ok ())
      (Except.ok [])).fst.selectedPassword = none :=
  ⟨(selection_clearing_amended stX).1 (Except.ok []),
   (selection_clearing_amended stX).2 "X" (Except.ok []) entryX rfl rfl⟩

theorem nilInfixAny (l : List Char) : [] <:+: l := ⟨[], l, rfl⟩

theorem infixNilIff (l : List Char) : l <:+: [] ↔ l = [] := by
  constructor
  · intro h
    exact List.sublist_nil.mp h.sublist
  · intro h
    subst h
    exact nilInfixAny []

theorem ciContains_empty_pat (s : String) : ciContains s "" = true :=
  decide_eq_true (nilInfixAny _)

theorem ciMatches_empty_query (p : PasswordEntry) : ciMatches "" p = true := by
  simp [ciMatches, ciContains_empty_pat]

theorem lowered_ne_nil (q : String) (hq : q ≠ "") : (lowerStr q).data ≠ [] := by
  intro h
  apply hq
  apply String.ext
  have h2 : q.data = [] := by
    have h3 : q.data.map Char.toLower = [] := h
    exact List.map_eq_nil_iff.mp h3
  simpa using h2

theorem containsStr_nil_haystack (q : String) (hq : q ≠ "") :
    containsStr (lowerStr "") (lowerStr q) = false := by
  apply decide_eq_false
  intro h
  exact lowered_ne_nil q hq ((infixNilIff _).mp h)

theorem entryMatches_eq_ciMatches (q : String) (hq : q ≠ "")
    (p : PasswordEntry) : entryMatches (lowerStr q) p = ciMatches q p := by
  unfold entryMatches ciMatches ciContains
  cases hu : p.url with
  | none => rfl
  | some u =>
      by_cases hu0 : u = ""
      · subst hu0
        simp [containsStr_nil_haystack q hq]
      · simp [hu0]

/-- Claim C8 (confirmed): `getFilteredPasswords` equals filtering the current
collection, in its order, by the case-insensitive substring match against
name, username and url when present (notes excluded); with the empty query it
returns the full collection unchanged. -/
theorem getFilteredPasswords_spec (s : VaultState) :
    getFilteredPasswords s = s.passwords.filter (ciMatches s.searchQuery) ∧
    (s.searchQuery = "" → getFilteredPasswords s = s.passwords) := by
  constructor
  · unfold getFilteredPasswords
    by_cases h : s.searchQuery = ""
    · rw [if_pos h, h]
      symm
      apply List.filter_eq_self.mpr
      intro a _
      exact ciMatches_empty_query a
    · rw [if_neg h]
      exact List.filter_congr (fun p _ => entryMatches_eq_ciMatches _ h p)
  · intro h
    unfold getFilteredPasswords
    rw [if_pos h]

def stFilter : VaultState :=
  { passwords :=
      [{ name := "Bank", username := "alice", password := "x",
         url := some "bank.com", notes := none },
       { name := "Email", username := "alice", password := "y",
         url := none, notes := none }],
    showAddForm := false, searchQuery := "",
    selectedPassword := none, showPassword := false, errorMessage := "",
    newPassword := emptyDraft, passwordLength := 16 }

theorem getFilteredPasswords_spec_witness :
    getFilteredPasswords stFilter = stFilter.passwords :=
  (getFilteredPasswords_spec stFilter).2 rfl

theorem filter_entryMatches_idem (q : String) (l : List PasswordEntry) :
    (l.filter (entryMatches q)).filter (entryMatches q) =
      l.filter (entryMatches q) := by
  rw [List.filter_filter]
  exact List.filter_congr (fun a _ => Bool.and_self _)

/-- Claim C9 (confirmed): applying the filter again to its own output, taken
as the collection, returns the same sequence of entries — filtering is
idempotent. -/
theorem getFilteredPasswords_idempotent (s : VaultState) :
    getFilteredPasswords { s with passwords := getFilteredPasswords s } =
      getFilteredPasswords s := by
  show (if s.searchQuery = "" then getFilteredPasswords s
        else (getFilteredPasswords s).filter
          (entryMatches (lowerStr s.searchQuery))) =
       getFilteredPasswords s
  by_cases h : s.searchQuery = ""
  · rw [if_pos h]
  · rw [if_neg h]
    unfold getFilteredPasswords
    rw [if_neg h]
    exact filter_entryMatches_idem _ _
